import Mathlib

/-!
Verification development for the sei-js swap orchestration pipeline
(mcp-server package).  The definitions below are shallow embeddings of the
TypeScript sources:

  * `encodeV3Path`            — swap-tools.ts / refactored swap tools helper
  * `MulticallService`        — core/services/MulticallService.ts
  * `SwapApprovalService`     — daat-core/services/SwapApprovalService.ts
  * `SwapGasService`          — daat-core/services/SwapGasService.ts
  * `DragonSwapApiService`    — dex/pricing/DragonSwapApiService.ts
  * sailor minAmountOut logic — sailor swap tool
  * the dragonswap swap pipeline — refactored dragonswap swap tool
  * `execute_arbitrage_opportunity` — arbitrage execution tool

Machine integers (TypeScript bigint) are modelled as `Nat`; decimal amounts
that the TypeScript code handles with floating point are modelled as `Rat`.
-/

namespace SeiSwap

/-! ## Hexadecimal rendering (JS `Number.toString(16).padStart(len, '0')`) -/

/-- The lowercase hex digit character for a value `0 ≤ d ≤ 15`, as produced by
JavaScript `toString(16)`. -/
def toHexChar (d : Nat) : Char :=
  match d with
  | 0 => '0' | 1 => '1' | 2 => '2' | 3 => '3'
  | 4 => '4' | 5 => '5' | 6 => '6' | 7 => '7'
  | 8 => '8' | 9 => '9' | 10 => 'a' | 11 => 'b'
  | 12 => 'c' | 13 => 'd' | 14 => 'e' | _ => 'f'

/-- The numeric value of a lowercase hex digit character. -/
def fromHexChar (c : Char) : Nat :=
  match c with
  | '0' => 0 | '1' => 1 | '2' => 2 | '3' => 3
  | '4' => 4 | '5' => 5 | '6' => 6 | '7' => 7
  | '8' => 8 | '9' => 9 | 'a' => 10 | 'b' => 11
  | 'c' => 12 | 'd' => 13 | 'e' => 14 | _ => 15

/-- Fixed-width big-endian lowercase hex rendering of `n` using `len` digits,
modelling `n.toString(16).padStart(len, '0')` for `n < 16 ^ len`. -/
def hexFixed (n len : Nat) : List Char :=
  (List.range len).map (fun i => toHexChar (n / 16 ^ (len - 1 - i) % 16))

/-- Numeric value of a big-endian list of hex digit characters. -/
def fromHexChars (cs : List Char) : Nat :=
  cs.foldl (fun a c => a * 16 + fromHexChar c) 0

theorem fromHexChar_toHexChar {d : Nat} (h : d < 16) :
    fromHexChar (toHexChar d) = d := by
  interval_cases d <;> rfl

theorem hexFixed_length (n len : Nat) : (hexFixed n len).length = len := by
  simp [hexFixed]

theorem hexFixed_succ (n len : Nat) :
    hexFixed n (len + 1) =
      toHexChar (n / 16 ^ len % 16) :: hexFixed n len := by
  unfold hexFixed
  rw [List.range_succ_eq_map]
  simp only [List.map_cons, List.map_map, Function.comp_def]
  congr 1
  apply List.map_congr_left
  intro i _
  have h : len - (i + 1) = len - 1 - i := by omega
  simp [Nat.succ_eq_add_one, h]

theorem foldl_hex_step (cs : List Char) (a b : Nat) :
    cs.foldl (fun x c => x * 16 + fromHexChar c) (a + b) =
      a * 16 ^ cs.length + cs.foldl (fun x c => x * 16 + fromHexChar c) b := by
  induction cs generalizing a b with
  | nil => simp
  | cons c cs ih =>
      simp only [List.foldl_cons, List.length_cons]
      have h1 : (a + b) * 16 + fromHexChar c = a * 16 + (b * 16 + fromHexChar c) := by ring
      rw [h1, ih]
      ring

theorem fromHexChars_hexFixed (n len : Nat) :
    fromHexChars (hexFixed n len) = n % 16 ^ len := by
  induction len with
  | zero => simp [fromHexChars, hexFixed, Nat.mod_one]
  | succ len ih =>
      rw [hexFixed_succ]
      unfold fromHexChars at *
      simp only [List.foldl_cons]
      rw [Nat.zero_mul, Nat.zero_add,
        fromHexChar_toHexChar (Nat.mod_lt _ (by norm_num))]
      have hsplit : n / 16 ^ len % 16 = n / 16 ^ len % 16 + 0 := by omega
      rw [hsplit, foldl_hex_step, hexFixed_length, ih]
      have h16 : (16 : Nat) ^ (len + 1) = 16 ^ len * 16 := by ring
      rw [h16, Nat.mod_mul]
      ring

theorem fromHexChars_hexFixed_of_lt {n len : Nat} (h : n < 16 ^ len) :
    fromHexChars (hexFixed n len) = n := by
  rw [fromHexChars_hexFixed, Nat.mod_eq_of_lt h]

/-! ## PathEncoder — `encodeV3Path` (refactored swap tools, sailor multi-hop)

The TypeScript encoder walks the route, appending to the first hop's
`token_in` (rendered as 40 lowercase hex digits) each hop's fee as
`parseInt(hop.fee).toString(16).padStart(6, '0')` followed by that hop's
`token_out`.  An empty (or missing) route throws
`Invalid route for V3 path encoding`.  Addresses and fees are modelled by
their numeric values; a well-formed hop has `token_in`, `token_out < 16 ^ 40`
(20-byte address) and `fee < 16 ^ 6` (fits in 3 bytes). -/

structure SailorHop where
  token_in : Nat
  token_out : Nat
  fee : Nat
deriving Repr, DecidableEq

/-- Shallow embedding of `encodeV3Path` from the refactored swap tools:
returns the packed path `0x`, then the first hop's `token_in` (40 hex
digits), then for each hop the 6-hex-digit fee and the hop's `token_out`.
An empty route fails with the source's error message. -/
def encodeV3Path (route : List SailorHop) : Except String String :=
  match route with
  | [] => Except.error "Invalid route for V3 path encoding"
  | first :: _ =>
    let path := route.foldl
      (fun acc hop => acc ++ hexFixed hop.fee 6 ++ hexFixed hop.token_out 40)
      (hexFixed first.token_in 40)
    Except.ok (String.mk ('0' :: 'x' :: path))

/-- Decoder for the packed V3 path format: after the `0x` prefix, 40 hex
digits of `token_in`, then per hop 6 hex digits of fee and 40 hex digits of
`token_out`.  Returns `none` on malformed input. -/
def decodeHops (cs : List Char) : Option (List (Nat × Nat)) :=
  if cs.isEmpty then some []
  else if h : 46 ≤ cs.length then
    match decodeHops (cs.drop 46) with
    | some rest =>
        some ((fromHexChars (cs.take 6), fromHexChars ((cs.drop 6).take 40)) :: rest)
    | none => none
  else none
termination_by cs.length
decreasing_by simp only [List.length_drop]; omega

/-- Decodes a packed V3 path string into the first token and the list of
(fee, tokenOut) pairs of each hop. -/
def decodeV3Path (s : String) : Option (Nat × List (Nat × Nat)) :=
  if s.data.take 2 = ['0', 'x'] ∧ 42 ≤ s.data.length then
    let cs := s.data.drop 2
    match decodeHops (cs.drop 40) with
    | some hops => some (fromHexChars (cs.take 40), hops)
    | none => none
  else none

theorem foldl_append_flatMap (route : List SailorHop) (init : List Char) :
    route.foldl
      (fun acc hop => acc ++ hexFixed hop.fee 6 ++ hexFixed hop.token_out 40)
      init
      = init ++ route.flatMap (fun hop => hexFixed hop.fee 6 ++ hexFixed hop.token_out 40) := by
  induction route generalizing init with
  | nil => simp
  | cons hop t ih =>
      rw [List.foldl_cons, ih, List.flatMap_cons]
      simp [List.append_assoc]

theorem decodeHops_cons (A B R : List Char) (hA : A.length = 6) (hB : B.length = 40) :
    decodeHops (A ++ B ++ R) =
      match decodeHops R with
      | some rest => some ((fromHexChars A, fromHexChars B) :: rest)
      | none => none := by
  have hlen : (A ++ B ++ R).length = 46 + R.length := by
    simp [hA, hB]
    omega
  have hne : (A ++ B ++ R).isEmpty = false := by
    cases hE : (A ++ B ++ R).isEmpty
    · rfl
    · exfalso
      have h0 := List.isEmpty_iff_length_eq_zero.mp hE
      omega
  have hle : 46 ≤ (A ++ B ++ R).length := by omega
  have hsplit : A ++ B ++ R = A ++ (B ++ R) := by simp [List.append_assoc]
  have htake6 : (A ++ B ++ R).take 6 = A := by
    rw [hsplit]
    exact List.take_left' hA
  have hdrop6 : (A ++ B ++ R).drop 6 = B ++ R := by
    rw [hsplit]
    exact List.drop_left' hA
  have hdrop46 : (A ++ B ++ R).drop 46 = R := by
    have h46 : (A ++ B ++ R).drop 46 = ((A ++ B ++ R).drop 6).drop 40 := by
      rw [List.drop_drop]
    rw [h46, hdrop6]
    exact List.drop_left' hB
  have htake40 : ((A ++ B ++ R).drop 6).take 40 = B := by
    rw [hdrop6]
    exact List.take_left' hB
  rw [decodeHops, hne]
  simp only [Bool.false_eq_true, if_false, hle, dif_pos, htake6, htake40, hdrop46]

theorem decodeHops_flatMap (route : List SailorHop)
    (hfee : ∀ hop ∈ route, hop.fee < 16 ^ 6)
    (htok : ∀ hop ∈ route, hop.token_out < 16 ^ 40) :
    decodeHops (route.flatMap fun hop => hexFixed hop.fee 6 ++ hexFixed hop.token_out 40)
      = some (route.map fun hop => (hop.fee, hop.token_out)) := by
  induction route with
  | nil => simp [decodeHops]
  | cons hop t ih =>
      rw [List.flatMap_cons,
        decodeHops_cons _ _ _ (hexFixed_length _ _) (hexFixed_length _ _),
        ih (fun h hm => hfee h (List.mem_cons_of_mem _ hm))
          (fun h hm => htok h (List.mem_cons_of_mem _ hm))]
      rw [fromHexChars_hexFixed_of_lt (hfee hop (List.mem_cons_self _ _)),
        fromHexChars_hexFixed_of_lt (htok hop (List.mem_cons_self _ _))]
      simp


instance {ε α : Type} [DecidableEq ε] [DecidableEq α] : DecidableEq (Except ε α) := fun a b =>
  match a, b with
  | Except.ok x, Except.ok y =>
      if h : x = y then isTrue (h ▸ rfl) else isFalse (fun hc => h (Except.ok.inj hc))
  | Except.error x, Except.error y =>
      if h : x = y then isTrue (h ▸ rfl) else isFalse (fun hc => h (Except.error.inj hc))
  | Except.ok _, Except.error _ => isFalse (fun hc => Except.noConfusion hc)
  | Except.error _, Except.ok _ => isFalse (fun hc => Except.noConfusion hc)

theorem decodeV3Path_mk (cs : List Char) (h : 40 ≤ cs.length) :
    decodeV3Path (String.mk ('0' :: 'x' :: cs)) =
      (match decodeHops (cs.drop 40) with
      | some hops => some (fromHexChars (cs.take 40), hops)
      | none => none) := by
  unfold decodeV3Path
  have hcond : List.take 2 (String.mk ('0' :: 'x' :: cs)).data = ['0', 'x'] ∧
      42 ≤ (String.mk ('0' :: 'x' :: cs)).data.length := by
    refine ⟨rfl, ?_⟩
    show 42 ≤ ('0' :: 'x' :: cs).length
    simp only [List.length_cons]
    omega
  rw [if_pos hcond]
  rfl

/-- C6: for every non-empty, well-formed hop list (addresses fitting in 20
bytes, fees fitting in 3 bytes), decoding the bytes produced by the path
encoder `encodeV3Path` reconstructs the exact input token/fee sequence —
first the first hop's `token_in`, then for each hop its 3-byte fee followed
by that hop's `token_out` — and applying the encoder to an empty hop list
fails with an error rather than silently producing an empty path. -/
theorem encodeV3Path_roundtrip (first : SailorHop) (rest : List SailorHop)
    (hin : first.token_in < 16 ^ 40)
    (hfee : ∀ hop ∈ first :: rest, hop.fee < 16 ^ 6)
    (htok : ∀ hop ∈ first :: rest, hop.token_out < 16 ^ 40) :
    (∃ s, encodeV3Path (first :: rest) = Except.ok s ∧
        decodeV3Path s = some (first.token_in,
          (first :: rest).map fun hop => (hop.fee, hop.token_out))) ∧
      encodeV3Path [] = Except.error "Invalid route for V3 path encoding" := by
  constructor
  · refine ⟨_, rfl, ?_⟩
    have hlen : (hexFixed first.token_in 40).length = 40 := hexFixed_length _ _
    rw [foldl_append_flatMap, decodeV3Path_mk _ (by simp [hlen]),
      List.drop_left' hlen, List.take_left' hlen,
      decodeHops_flatMap _ hfee htok, fromHexChars_hexFixed_of_lt hin]
  · rfl

/-- Closed witness for the round-trip theorem on a concrete two-hop route. -/
theorem encodeV3Path_roundtrip_witness :
    (∃ s,
        encodeV3Path
            [⟨0xaaaaaaaaaaaaaaaaaaaaaaaaaaaaaaaaaaaaaaaa,
              0xbbbbbbbbbbbbbbbbbbbbbbbbbbbbbbbbbbbbbbbb, 500⟩,
             ⟨0xbbbbbbbbbbbbbbbbbbbbbbbbbbbbbbbbbbbbbbbb,
              0xcccccccccccccccccccccccccccccccccccccccc, 3000⟩] = Except.ok s ∧
          decodeV3Path s = some (0xaaaaaaaaaaaaaaaaaaaaaaaaaaaaaaaaaaaaaaaa,
            [(500, 0xbbbbbbbbbbbbbbbbbbbbbbbbbbbbbbbbbbbbbbbb),
             (3000, 0xcccccccccccccccccccccccccccccccccccccccc)])) ∧
      encodeV3Path [] = Except.error "Invalid route for V3 path encoding" :=
  encodeV3Path_roundtrip
    ⟨0xaaaaaaaaaaaaaaaaaaaaaaaaaaaaaaaaaaaaaaaa,
     0xbbbbbbbbbbbbbbbbbbbbbbbbbbbbbbbbbbbbbbbb, 500⟩
    [⟨0xbbbbbbbbbbbbbbbbbbbbbbbbbbbbbbbbbbbbbbbb,
      0xcccccccccccccccccccccccccccccccccccccccc, 3000⟩]
    (by norm_num) (by decide) (by decide)

/-- C7 counterexample: on the single hop with fee 3000 the encoder does NOT
render the fee as `002710` — 3000 in hexadecimal is `000bb8`, not `002710`
(the latter is hexadecimal for 10000). -/
theorem encodeV3Path_fee3000_ne_002710 :
    encodeV3Path
        [⟨0xaaaaaaaaaaaaaaaaaaaaaaaaaaaaaaaaaaaaaaaa,
          0xbbbbbbbbbbbbbbbbbbbbbbbbbbbbbbbbbbbbbbbb, 3000⟩]
      ≠ Except.ok
          "0xaaaaaaaaaaaaaaaaaaaaaaaaaaaaaaaaaaaaaaaa002710bbbbbbbbbbbbbbbbbbbbbbbbbbbbbbbbbbbbbbbb" := by
  decide

/-- C7 (amended): for the single hop with tokenIn 0xaa..aa, tokenOut
0xbb..bb and fee 3000, `encodeV3Path` yields the concatenation
0xaa..aa followed by the fixed-width 24-bit big-endian hex rendering
`000bb8` of the fee (3000 = 0x000bb8), followed by 0xbb..bb. -/
theorem encodeV3Path_fee3000_eq_000bb8 :
    encodeV3Path
        [⟨0xaaaaaaaaaaaaaaaaaaaaaaaaaaaaaaaaaaaaaaaa,
          0xbbbbbbbbbbbbbbbbbbbbbbbbbbbbbbbbbbbbbbbb, 3000⟩]
      = Except.ok
          "0xaaaaaaaaaaaaaaaaaaaaaaaaaaaaaaaaaaaaaaaa000bb8bbbbbbbbbbbbbbbbbbbbbbbbbbbbbbbbbbbbbbbb" := by
  decide

/-! ## BatchReader — MulticallService (core/services/MulticallService.ts)

`createERC20Call`, `createERC20BalanceCall` and `createERC20AllowanceCall`
each build one sub-call of the aggregated `aggregate3` read; the encoded ABI
calldata is modelled by the symbolic `ERC20CallData` (the byte-level ABI
encoding carries exactly this information).  A sub-call result carries the
Multicall3 `success` flag and, abstractly, the value its return bytes decode
to (`none` models return bytes `decodeFunctionResult` rejects; when viem's
decode succeeds on an ERC20 ABI it yields a value of the declared type). -/

inductive ERC20Fn where
  | decimals | symbol | name
deriving Repr, DecidableEq

inductive ERC20CallData where
  | decimals
  | symbol
  | name
  | balanceOf (account : Nat)
  | allowance (owner spender : Nat)
deriving Repr, DecidableEq

structure MulticallCall where
  target : Nat
  allowFailure : Bool
  callData : ERC20CallData
deriving Repr, DecidableEq

inductive ERC20Value where
  | num (n : Nat)
  | txt (s : String)
deriving Repr, DecidableEq

structure MulticallResult where
  success : Bool
  returnData : Option ERC20Value
deriving Repr, DecidableEq

/-- A sub-call result that failed outright (used as the out-of-range default;
an out-of-range access in the TypeScript code yields `undefined`, whose
decode likewise throws and is handled by the same catch). -/
def failedResult : MulticallResult := { success := false, returnData := none }

def createERC20Call (tokenAddress : Nat) (functionName : ERC20Fn) : MulticallCall :=
  { target := tokenAddress
    allowFailure := false
    callData :=
      match functionName with
      | ERC20Fn.decimals => ERC20CallData.decimals
      | ERC20Fn.symbol => ERC20CallData.symbol
      | ERC20Fn.name => ERC20CallData.name }

def createERC20BalanceCall (tokenAddress accountAddress : Nat) : MulticallCall :=
  { target := tokenAddress
    allowFailure := false
    callData := ERC20CallData.balanceOf accountAddress }

def createERC20AllowanceCall (tokenAddress ownerAddress spenderAddress : Nat) : MulticallCall :=
  { target := tokenAddress
    allowFailure := false
    callData := ERC20CallData.allowance ownerAddress spenderAddress }

/-- `decodeERC20Result`: throws `Multicall failed for <functionName>` when the
sub-call did not succeed, otherwise decodes the return bytes (throwing when
they do not decode). -/
def decodeERC20Result (result : MulticallResult) (functionName : String) :
    Except String ERC20Value :=
  if result.success = false then
    Except.error ("Multicall failed for " ++ functionName)
  else
    match result.returnData with
    | some v => Except.ok v
    | none => Except.error ("Failed to decode result for " ++ functionName)

/-- Decode expecting a numeric return (decimals / balanceOf / allowance). -/
def decodeNatResult (result : MulticallResult) (functionName : String) :
    Except String Nat :=
  match decodeERC20Result result functionName with
  | Except.ok (ERC20Value.num n) => Except.ok n
  | Except.ok (ERC20Value.txt _) =>
      Except.error ("Failed to decode result for " ++ functionName)
  | Except.error e => Except.error e

/-- Decode expecting a string return (symbol / name). -/
def decodeTxtResult (result : MulticallResult) (functionName : String) :
    Except String String :=
  match decodeERC20Result result functionName with
  | Except.ok (ERC20Value.txt s) => Except.ok s
  | Except.ok (ERC20Value.num _) =>
      Except.error ("Failed to decode result for " ++ functionName)
  | Except.error e => Except.error e

structure TokenInfo where
  decimals : Nat
  symbol : String
  name : String
deriving Repr, DecidableEq

/-- The per-token decode step of `getTokensInfo`: each token's trio of
results is decoded inside its own try block, and any failure substitutes the
defaults decimals 18, symbol UNKNOWN, name Unknown Token. -/
def decodeTokenInfo (decimalsResult symbolResult nameResult : MulticallResult) : TokenInfo :=
  match decodeNatResult decimalsResult "decimals",
        decodeTxtResult symbolResult "symbol",
        decodeTxtResult nameResult "name" with
  | Except.ok d, Except.ok s, Except.ok n => { decimals := d, symbol := s, name := n }
  | _, _, _ => { decimals := 18, symbol := "UNKNOWN", name := "Unknown Token" }

/-- The calls built by `getTokensInfo`: per token `decimals`, `symbol`,
`name`. -/
def getTokensInfoCalls (tokenAddresses : List Nat) : List MulticallCall :=
  tokenAddresses.flatMap (fun a =>
    [createERC20Call a ERC20Fn.decimals,
     createERC20Call a ERC20Fn.symbol,
     createERC20Call a ERC20Fn.name])

/-- `getTokensInfo`, given the aggregated results of its batched call
(three results per token): builds the address-keyed record of token infos. -/
def getTokensInfo (tokenAddresses : List Nat) (results : List MulticallResult) :
    List (Nat × TokenInfo) :=
  (List.range tokenAddresses.length).map (fun i =>
    (tokenAddresses.getD i 0,
     decodeTokenInfo (results.getD (i * 3) failedResult)
       (results.getD (i * 3 + 1) failedResult)
       (results.getD (i * 3 + 2) failedResult)))

/-- Record lookup (last write wins, as for a TypeScript object keyed by
address). -/
def recordGet (infos : List (Nat × TokenInfo)) (a : Nat) : Option TokenInfo :=
  (infos.reverse.lookup a)

structure TokenBasicInfo where
  tokenInDecimals : Nat
  tokenOutDecimals : Nat
  tokenInSymbol : String
  tokenOutSymbol : String
deriving Repr, DecidableEq

/-- `getTokenBasicInfo`: reads both tokens through `getTokensInfo` and
projects decimals and symbols. -/
def getTokenBasicInfo (tokenIn tokenOut : Nat) (results : List MulticallResult) :
    Option TokenBasicInfo :=
  match recordGet (getTokensInfo [tokenIn, tokenOut] results) tokenIn,
        recordGet (getTokensInfo [tokenIn, tokenOut] results) tokenOut with
  | some a, some b =>
      some { tokenInDecimals := a.decimals, tokenOutDecimals := b.decimals,
             tokenInSymbol := a.symbol, tokenOutSymbol := b.symbol }
  | _, _ => none

structure SwapInfo where
  tokenInDecimals : Nat
  tokenOutDecimals : Nat
  tokenInSymbol : String
  tokenOutSymbol : String
  tokenInName : String
  tokenOutName : String
  balance : Nat
  allowance : Nat
deriving Repr, DecidableEq

/-- The eight sub-calls batched by `getSwapInfo`: decimals/symbol/name for
both tokens, then balanceOf(account) and allowance(account, spender) for
tokenIn. -/
def getSwapInfoCalls (tokenIn tokenOut accountAddress spenderAddress : Nat) :
    List MulticallCall :=
  [createERC20Call tokenIn ERC20Fn.decimals,
   createERC20Call tokenIn ERC20Fn.symbol,
   createERC20Call tokenIn ERC20Fn.name,
   createERC20Call tokenOut ERC20Fn.decimals,
   createERC20Call tokenOut ERC20Fn.symbol,
   createERC20Call tokenOut ERC20Fn.name,
   createERC20BalanceCall tokenIn accountAddress,
   createERC20AllowanceCall tokenIn accountAddress spenderAddress]

/-- The decode stage of `getSwapInfo`: all eight results are decoded inside
one try block, so the first failure aborts the whole decode. -/
def getSwapInfoDecoded (results : List MulticallResult) : Except String SwapInfo := do
  let tokenInDecimals ← decodeNatResult (results.getD 0 failedResult) "decimals"
  let tokenInSymbol ← decodeTxtResult (results.getD 1 failedResult) "symbol"
  let tokenInName ← decodeTxtResult (results.getD 2 failedResult) "name"
  let tokenOutDecimals ← decodeNatResult (results.getD 3 failedResult) "decimals"
  let tokenOutSymbol ← decodeTxtResult (results.getD 4 failedResult) "symbol"
  let tokenOutName ← decodeTxtResult (results.getD 5 failedResult) "name"
  let balance ← decodeNatResult (results.getD 6 failedResult) "balanceOf"
  let allowance ← decodeNatResult (results.getD 7 failedResult) "allowance"
  pure { tokenInDecimals, tokenOutDecimals, tokenInSymbol, tokenOutSymbol,
         tokenInName, tokenOutName, balance, allowance }

/-- `getSwapInfo`: wraps any decode failure into a hard
`Failed to get swap info` error (the catch block rethrows). -/
def getSwapInfo (results : List MulticallResult) : Except String SwapInfo :=
  match getSwapInfoDecoded results with
  | Except.ok v => Except.ok v
  | Except.error e => Except.error ("Failed to get swap info: " ++ e)

def exceptOk {ε α : Type} : Except ε α → Bool
  | Except.ok _ => true
  | Except.error _ => false

theorem except_bind_ok {α β : Type} (a : α) (f : α → Except String β) :
    (Except.ok a : Except String α) >>= f = f a := rfl

theorem except_bind_error {α β : Type} (e : String) (f : α → Except String β) :
    (Except.error e : Except String α) >>= f = Except.error e := rfl

theorem decodeNatResult_ok_success {r : MulticallResult} {fn : String} {v : Nat}
    (h : decodeNatResult r fn = Except.ok v) : r.success = true := by
  cases hs : r.success
  · unfold decodeNatResult decodeERC20Result at h
    rw [hs] at h
    simp at h
  · rfl

theorem decodeTxtResult_ok_success {r : MulticallResult} {fn : String} {v : String}
    (h : decodeTxtResult r fn = Except.ok v) : r.success = true := by
  cases hs : r.success
  · unfold decodeTxtResult decodeERC20Result at h
    rw [hs] at h
    simp at h
  · rfl

/-- C4 (amended): every sub-call of the batched pair-info read is built with
per-call allowFailure = false (not true), and the batch decode is
all-or-nothing: whenever `getSwapInfo` returns successfully, every one of
the eight sub-calls succeeded — equivalently, a single failed sub-call
aborts the whole batched decode instead of leaving the remaining
sub-results decoded. -/
theorem getSwapInfo_allowFailure_false_and_aborts
    (tokenIn tokenOut accountAddress spenderAddress : Nat)
    (results : List MulticallResult) (info : SwapInfo)
    (call : MulticallCall) (i : Nat)
    (hok : getSwapInfo results = Except.ok info)
    (hc : call ∈ getSwapInfoCalls tokenIn tokenOut accountAddress spenderAddress)
    (hi : i < 8) :
    call.allowFailure = false ∧ (results.getD i failedResult).success = true := by
  constructor
  · simp only [getSwapInfoCalls, List.mem_cons, List.not_mem_nil, or_false] at hc
    rcases hc with rfl | rfl | rfl | rfl | rfl | rfl | rfl | rfl <;> rfl
  · have hd : getSwapInfoDecoded results = Except.ok info := by
      unfold getSwapInfo at hok
      cases hD : getSwapInfoDecoded results with
      | ok v =>
          rw [hD] at hok
          exact hok
      | error e =>
          rw [hD] at hok
          simp at hok
    unfold getSwapInfoDecoded at hd
    cases h0 : decodeNatResult (results.getD 0 failedResult) "decimals" with
    | error e => rw [h0, except_bind_error] at hd; simp at hd
    | ok v0 =>
    rw [h0, except_bind_ok] at hd
    cases h1 : decodeTxtResult (results.getD 1 failedResult) "symbol" with
    | error e => rw [h1, except_bind_error] at hd; simp at hd
    | ok v1 =>
    rw [h1, except_bind_ok] at hd
    cases h2 : decodeTxtResult (results.getD 2 failedResult) "name" with
    | error e => rw [h2, except_bind_error] at hd; simp at hd
    | ok v2 =>
    rw [h2, except_bind_ok] at hd
    cases h3 : decodeNatResult (results.getD 3 failedResult) "decimals" with
    | error e => rw [h3, except_bind_error] at hd; simp at hd
    | ok v3 =>
    rw [h3, except_bind_ok] at hd
    cases h4 : decodeTxtResult (results.getD 4 failedResult) "symbol" with
    | error e => rw [h4, except_bind_error] at hd; simp at hd
    | ok v4 =>
    rw [h4, except_bind_ok] at hd
    cases h5 : decodeTxtResult (results.getD 5 failedResult) "name" with
    | error e => rw [h5, except_bind_error] at hd; simp at hd
    | ok v5 =>
    rw [h5, except_bind_ok] at hd
    cases h6 : decodeNatResult (results.getD 6 failedResult) "balanceOf" with
    | error e => rw [h6, except_bind_error] at hd; simp at hd
    | ok v6 =>
    rw [h6, except_bind_ok] at hd
    cases h7 : decodeNatResult (results.getD 7 failedResult) "allowance" with
    | error e => rw [h7, except_bind_error] at hd; simp at hd
    | ok v7 =>
    interval_cases i
    · exact decodeNatResult_ok_success h0
    · exact decodeTxtResult_ok_success h1
    · exact decodeTxtResult_ok_success h2
    · exact decodeNatResult_ok_success h3
    · exact decodeTxtResult_ok_success h4
    · exact decodeTxtResult_ok_success h5
    · exact decodeNatResult_ok_success h6
    · exact decodeNatResult_ok_success h7

/-- C4 counterexample: the concrete decimals sub-call built for the batched
pair-info read has allowFailure = false, refuting the claimed per-call
allowFailure = true. -/
theorem createERC20Call_allowFailure_counterexample :
    ¬ ((createERC20Call 0xe15fc38f6d8c56af07bbcbe3baf5708a2bf42392
          ERC20Fn.decimals).allowFailure = true) := by
  decide

/-- Sample batch results in which all eight sub-calls succeed and decode. -/
def sampleSwapResults : List MulticallResult :=
  [{ success := true, returnData := some (ERC20Value.num 6) },
   { success := true, returnData := some (ERC20Value.txt "USDC") },
   { success := true, returnData := some (ERC20Value.txt "USD Coin") },
   { success := true, returnData := some (ERC20Value.num 18) },
   { success := true, returnData := some (ERC20Value.txt "USDT") },
   { success := true, returnData := some (ERC20Value.txt "Tether USD") },
   { success := true, returnData := some (ERC20Value.num 1000) },
   { success := true, returnData := some (ERC20Value.num 0) }]

/-- Closed witness for the C4 theorem at concrete inputs. -/
theorem getSwapInfo_allowFailure_false_and_aborts_witness :
    (createERC20Call 1 ERC20Fn.decimals).allowFailure = false ∧
      (sampleSwapResults.getD 6 failedResult).success = true :=
  getSwapInfo_allowFailure_false_and_aborts 1 2 3 4 sampleSwapResults
    { tokenInDecimals := 6, tokenOutDecimals := 18,
      tokenInSymbol := "USDC", tokenOutSymbol := "USDT",
      tokenInName := "USD Coin", tokenOutName := "Tether USD",
      balance := 1000, allowance := 0 }
    (createERC20Call 1 ERC20Fn.decimals) 6
    (by decide) (by decide) (by decide)

theorem decodeTokenInfo_fail (d s n : MulticallResult)
    (hfail : exceptOk (decodeNatResult d "decimals") = false ∨
             exceptOk (decodeTxtResult s "symbol") = false ∨
             exceptOk (decodeTxtResult n "name") = false) :
    decodeTokenInfo d s n =
      { decimals := 18, symbol := "UNKNOWN", name := "Unknown Token" } := by
  cases hd : decodeNatResult d "decimals" <;>
    cases hs : decodeTxtResult s "symbol" <;>
      cases hn : decodeTxtResult n "name" <;>
        simp_all [decodeTokenInfo, exceptOk]

/-- C10: `getTokensInfo` never propagates a per-token decode failure: it
returns one entry per requested token, and a token whose decimals, symbol or
name sub-result fails to decode silently receives the defaults decimals 18,
symbol UNKNOWN, name Unknown Token; consequently `getTokenBasicInfo` (used
by the quote and arbitrage tools) always returns metadata for every
requested token, possibly fabricated 18-decimal info. -/
theorem getTokensInfo_defaults_total
    (tokenAddresses : List Nat) (results : List MulticallResult)
    (i tokenIn tokenOut : Nat)
    (hi : i < tokenAddresses.length)
    (hfail : exceptOk (decodeNatResult (results.getD (i * 3) failedResult) "decimals") = false ∨
             exceptOk (decodeTxtResult (results.getD (i * 3 + 1) failedResult) "symbol") = false ∨
             exceptOk (decodeTxtResult (results.getD (i * 3 + 2) failedResult) "name") = false) :
    (getTokensInfo tokenAddresses results).length = tokenAddresses.length ∧
    (getTokensInfo tokenAddresses results).getD i (0, { decimals := 0, symbol := "", name := "" })
      = (tokenAddresses.getD i 0,
         { decimals := 18, symbol := "UNKNOWN", name := "Unknown Token" }) ∧
    (getTokenBasicInfo tokenIn tokenOut results).isSome = true := by
  refine ⟨by simp [getTokensInfo], ?_, ?_⟩
  · unfold getTokensInfo
    have hD := decodeTokenInfo_fail (results.getD (i * 3) failedResult)
      (results.getD (i * 3 + 1) failedResult)
      (results.getD (i * 3 + 2) failedResult) hfail
    rw [List.getD_eq_getElem?_getD, List.getElem?_map, List.getElem?_range hi]
    simp only [Option.map, Option.getD, ← List.getD_eq_getElem?_getD]
    rw [hD]
  · unfold getTokenBasicInfo
    cases hB : (tokenIn == tokenOut) <;>
      simp [getTokensInfo, recordGet, List.lookup, hB]

/-- Closed witness for the C10 theorem: one token, an empty result list
(every sub-result fails), so the token receives the fabricated defaults. -/
theorem getTokensInfo_defaults_total_witness :
    (getTokensInfo [7] []).length = [7].length ∧
    (getTokensInfo [7] []).getD 0 (0, { decimals := 0, symbol := "", name := "" })
      = (7, { decimals := 18, symbol := "UNKNOWN", name := "Unknown Token" }) ∧
    (getTokenBasicInfo 7 9 []).isSome = true :=
  getTokensInfo_defaults_total [7] [] 0 7 9 (by decide) (Or.inl (by decide))

/-! ## QuoteRouter minAmountOut (DragonSwapApiService / sailor swap tool)

`DragonSwapApiService.calculateMinAmountOut` works on the decimal-unit quote
with floating-point percentage math (modelled exactly over `Rat`); the
sailor swap tool computes its auto minAmountOut in wei with bigint
arithmetic after converting the slippage percentage to basis points via
`Math.floor(slippage * 100)` (the basis-point value is taken as input
here). -/

/-- `DragonSwapApiService.calculateMinAmountOut`:
quote * (1 - slippagePercent / 100). -/
def calculateMinAmountOut (quoteDecimals slippagePercent : Rat) : Rat :=
  quoteDecimals * (1 - slippagePercent / 100)

/-- The sailor swap tool's auto-calculated minAmountOut (wei):
`total * (10000n - slippageBps) / 10000n`, recomputed with a floor of 500
bps when the quoted output is below 10000 wei. -/
def sailorMinAmountOut (totalAmountOut slippageBps : Nat) : Nat :=
  let minOut := totalAmountOut * (10000 - slippageBps) / 10000
  if totalAmountOut < 10000 then
    let minSlippage := if slippageBps > 500 then slippageBps else 500
    totalAmountOut * (10000 - minSlippage) / 10000
  else minOut

/-- C5 counterexample: on the DragonSwap protocol path there is no
small-output widening.  A quoted output of 10⁻¹⁵ tokens (1000 wei for an
18-decimal token, below the 10000-wei threshold) with 2 % slippage yields
minAmountOut = quote · 98/100, strictly greater than the ≥5 %-widened bound
quote · (1 - 500/10000) the claim requires on every protocol path. -/
theorem calculateMinAmountOut_no_widening_counterexample :
    calculateMinAmountOut (1 / 10 ^ 15) 2 = 98 / 10 ^ 17 ∧
    (1 / 10 ^ 15 : Rat) * 10 ^ 18 < 10000 ∧
    (1 / 10 ^ 15 : Rat) * (1 - 500 / 10000) < calculateMinAmountOut (1 / 10 ^ 15) 2 := by
  refine ⟨by norm_num [calculateMinAmountOut], by norm_num, ?_⟩
  norm_num [calculateMinAmountOut]

/-- C5 (amended): when no minAmountOut is supplied, the quote stage computes
minAmountOut = quotedOutput * (1 - slippageBps/10000) — on the DragonSwap
path in decimal units with slippageBps = 100 · slippagePercent, on the
Sailor path in wei with integer floor division — but the widening of the
effective slippage to at least 5 % (500 bps) for quoted outputs below the
fixed 10000-wei threshold exists only on the Sailor path. -/
theorem minAmountOut_formula_and_sailor_widening
    (q s : Rat) (total bps : Nat) (hbps : bps ≤ 10000) :
    calculateMinAmountOut q s = q * (1 - (100 * s) / 10000) ∧
    (10000 ≤ total →
      sailorMinAmountOut total bps = total * (10000 - bps) / 10000) ∧
    (total < 10000 →
      sailorMinAmountOut total bps = total * (10000 - max bps 500) / 10000 ∧
      sailorMinAmountOut total bps ≤ total * (10000 - 500) / 10000) := by
  refine ⟨?_, ?_, ?_⟩
  · unfold calculateMinAmountOut
    ring
  · intro hge
    unfold sailorMinAmountOut
    rw [if_neg (by omega)]
  · intro hlt
    have hmax : (if bps > 500 then bps else 500) = max bps 500 := by
      rcases le_or_lt bps 500 with h | h
      · rw [if_neg (by omega), max_eq_right h]
      · rw [if_pos h, max_eq_left h.le]
    constructor
    · unfold sailorMinAmountOut
      rw [if_pos hlt, hmax]
    · unfold sailorMinAmountOut
      rw [if_pos hlt, hmax]
      apply Nat.div_le_div_right
      apply Nat.mul_le_mul_left
      omega

/-- Closed witness for the amended C5 theorem: quote 5, slippage 2 %,
a 5000-wei sailor output with 200 bps slippage (widened to 500 bps). -/
theorem minAmountOut_formula_and_sailor_widening_witness :
    calculateMinAmountOut 5 2 = 5 * (1 - (100 * 2) / 10000) ∧
    (10000 ≤ 5000 →
      sailorMinAmountOut 5000 200 = 5000 * (10000 - 200) / 10000) ∧
    (5000 < 10000 →
      sailorMinAmountOut 5000 200 = 5000 * (10000 - max 200 500) / 10000 ∧
      sailorMinAmountOut 5000 200 ≤ 5000 * (10000 - 500) / 10000) :=
  minAmountOut_formula_and_sailor_widening 5 2 5000 200 (by norm_num)

/-! ## ArbitrageScanner — `execute_arbitrage_opportunity` (arbitrage tools)

The tool requests quotes from both DEXes with `Promise.allSettled`; the two
outcomes are modelled as the pair of `Option` inputs (a `none` is a rejected
promise).  Outputs are compared in decimal units as floats, modelled over
`Rat`. -/

inductive Dex where
  | dragonswap
  | sailor
deriving Repr, DecidableEq

inductive ArbOutcome where
  | bothNoQuote
  | oneNoQuote (available : Dex)
  | notProfitable (profitPercent : Rat)
  | dryRunAnalysis (executeDex : Dex) (profitPercent : Rat)
  | execute (executeDex : Dex) (profitPercent : Rat)
deriving Repr, DecidableEq

/-- The quoted output of a given DEX. -/
def dexOutput (dex : Dex) (dragonOutput sailorOutput : Rat) : Rat :=
  match dex with
  | Dex.dragonswap => dragonOutput
  | Dex.sailor => sailorOutput

/-- The scan/execute decision logic of `execute_arbitrage_opportunity`:
both quotes must be fulfilled; the better (higher-output) DEX is identified;
profitPercent = (better - worse) / worse * 100; strictly below the
minProfitPercent threshold the tool returns the analysis without executing;
otherwise it executes on the DEX with the worse quote (buying where the
price is favourable), unless dryRun is set. -/
def arbScan (dragonQuote sailorQuote : Option Rat) (minProfitPercent : Rat)
    (dryRun : Bool) : ArbOutcome :=
  match dragonQuote, sailorQuote with
  | none, none => ArbOutcome.bothNoQuote
  | some _, none => ArbOutcome.oneNoQuote Dex.dragonswap
  | none, some _ => ArbOutcome.oneNoQuote Dex.sailor
  | some dragonOutput, some sailorOutput =>
    let betterDex := if dragonOutput > sailorOutput then Dex.dragonswap else Dex.sailor
    let betterOutput := if dragonOutput > sailorOutput then dragonOutput else sailorOutput
    let worseOutput := if dragonOutput > sailorOutput then sailorOutput else dragonOutput
    let profitAmount := betterOutput - worseOutput
    let profitPercent := profitAmount / worseOutput * 100
    if profitPercent < minProfitPercent then
      ArbOutcome.notProfitable profitPercent
    else
      let executeDex := if betterDex = Dex.dragonswap then Dex.sailor else Dex.dragonswap
      if dryRun then ArbOutcome.dryRunAnalysis executeDex profitPercent
      else ArbOutcome.execute executeDex profitPercent

theorem ite_gt_max (d s : Rat) : (if d > s then d else s) = max d s := by
  rcases le_or_lt d s with h | h
  · rw [if_neg (not_lt.mpr h), max_eq_right h]
  · rw [if_pos h, max_eq_left h.le]

theorem ite_gt_min (d s : Rat) : (if d > s then s else d) = min d s := by
  rcases le_or_lt d s with h | h
  · rw [if_neg (not_lt.mpr h), min_eq_left h]
  · rw [if_pos h, min_eq_right h.le]

theorem arbScan_eq (dragonOutput sailorOutput minProfitPercent : Rat) :
    arbScan (some dragonOutput) (some sailorOutput) minProfitPercent false =
      (if (max dragonOutput sailorOutput - min dragonOutput sailorOutput)
            / min dragonOutput sailorOutput * 100 < minProfitPercent then
        ArbOutcome.notProfitable
          ((max dragonOutput sailorOutput - min dragonOutput sailorOutput)
            / min dragonOutput sailorOutput * 100)
      else
        ArbOutcome.execute
          (if dragonOutput > sailorOutput then Dex.sailor else Dex.dragonswap)
          ((max dragonOutput sailorOutput - min dragonOutput sailorOutput)
            / min dragonOutput sailorOutput * 100)) := by
  unfold arbScan
  simp only
  rcases le_or_lt dragonOutput sailorOutput with h | h
  · rw [if_neg (not_lt.mpr h), if_neg (not_lt.mpr h), if_neg (not_lt.mpr h),
      max_eq_right h, min_eq_left h]
    rcases lt_or_le ((sailorOutput - dragonOutput) / dragonOutput * 100) minProfitPercent
      with hp | hp
    · rw [if_pos hp, if_pos hp]
    · rw [if_neg (not_lt.mpr hp), if_neg (not_lt.mpr hp), if_neg (not_lt.mpr h)]
      rfl
  · rw [if_pos h, if_pos h, if_pos h, max_eq_left h.le, min_eq_right h.le]
    rcases lt_or_le ((dragonOutput - sailorOutput) / sailorOutput * 100) minProfitPercent
      with hp | hp
    · rw [if_pos hp, if_pos hp]
    · rw [if_neg (not_lt.mpr hp), if_neg (not_lt.mpr hp), if_pos h]
      rfl

/-- C8: the arbitrage scan evaluates the two DEX quote outcomes jointly
(the code issues them in parallel via allSettled); profitability is only
evaluated when both quotes succeed (a missing quote yields a distinct
error outcome); with spreadBps = (max - min) / min * 10000 and the
caller's percent threshold scaled to basis points, the scan returns the
no-op analysis outcome exactly when the spread is strictly below the
threshold, and when it executes it trades on the DEX that returned the
worse (lower-output) quote. -/
theorem arbScan_spec (dragonOutput sailorOutput minProfitPercent : Rat)
    (hd : 0 < dragonOutput) (hs : 0 < sailorOutput) :
    ((∃ p, arbScan (some dragonOutput) (some sailorOutput) minProfitPercent false
          = ArbOutcome.notProfitable p)
        ↔ (max dragonOutput sailorOutput - min dragonOutput sailorOutput)
            / min dragonOutput sailorOutput * 10000 < 100 * minProfitPercent) ∧
    (∀ dex p, arbScan (some dragonOutput) (some sailorOutput) minProfitPercent false
          = ArbOutcome.execute dex p →
        dexOutput dex dragonOutput sailorOutput = min dragonOutput sailorOutput) ∧
    arbScan none (some sailorOutput) minProfitPercent false
      = ArbOutcome.oneNoQuote Dex.sailor ∧
    arbScan (some dragonOutput) none minProfitPercent false
      = ArbOutcome.oneNoQuote Dex.dragonswap ∧
    arbScan none none minProfitPercent false = ArbOutcome.bothNoQuote := by
  have hbps : (max dragonOutput sailorOutput - min dragonOutput sailorOutput)
      / min dragonOutput sailorOutput * 10000
        = ((max dragonOutput sailorOutput - min dragonOutput sailorOutput)
            / min dragonOutput sailorOutput * 100) * 100 := by
    ring
  have hscale : ∀ x m : Rat, (x * 100 < 100 * m ↔ x < m) := by
    intro x m
    rw [mul_comm 100 m]
    exact mul_lt_mul_right (by norm_num)
  refine ⟨?_, ?_, rfl, rfl, rfl⟩
  · rw [arbScan_eq, hbps, hscale]
    rcases lt_or_le ((max dragonOutput sailorOutput - min dragonOutput sailorOutput)
        / min dragonOutput sailorOutput * 100) minProfitPercent with hp | hp
    · rw [if_pos hp]
      exact ⟨fun _ => hp, fun _ => ⟨_, rfl⟩⟩
    · rw [if_neg (not_lt.mpr hp)]
      constructor
      · rintro ⟨p, hcontra⟩
        exact absurd hcontra (by simp)
      · intro habs
        exact absurd habs (not_lt.mpr hp)
  · intro dex p hexec
    rw [arbScan_eq] at hexec
    rcases lt_or_le ((max dragonOutput sailorOutput - min dragonOutput sailorOutput)
        / min dragonOutput sailorOutput * 100) minProfitPercent with hp | hp
    · rw [if_pos hp] at hexec
      exact absurd hexec (by simp)
    · rw [if_neg (not_lt.mpr hp)] at hexec
      injection hexec with h1 h2
      subst h1
      rcases le_or_lt dragonOutput sailorOutput with h | h
      · rw [if_neg (not_lt.mpr h)]
        unfold dexOutput
        rw [min_eq_left h]
      · rw [if_pos h]
        unfold dexOutput
        rw [min_eq_right h.le]

/-- Closed witness for the C8 theorem on the spec's Example 2: outputs 102
(DragonSwap) and 100 (Sailor) with a 1 % threshold. -/
theorem arbScan_spec_witness :
    ((∃ p, arbScan (some 102) (some 100) 1 false = ArbOutcome.notProfitable p)
        ↔ (max (102 : Rat) 100 - min (102 : Rat) 100) / min (102 : Rat) 100 * 10000
            < 100 * 1) ∧
    (∀ dex p, arbScan (some 102) (some 100) 1 false = ArbOutcome.execute dex p →
        dexOutput dex 102 100 = min (102 : Rat) 100) ∧
    arbScan none (some 100) 1 false = ArbOutcome.oneNoQuote Dex.sailor ∧
    arbScan (some 102) none 1 false = ArbOutcome.oneNoQuote Dex.dragonswap ∧
    arbScan none none 1 false = ArbOutcome.bothNoQuote :=
  arbScan_spec 102 100 1 (by norm_num) (by norm_num)

/-! ## GasPlanner — SwapGasService

`estimateAndPriceGas` resolves the gas limit and EIP-1559 fee parameters.
The chain interactions (`estimateContractGas`, `getGasPrice`) are inputs:
`simulatedGas = none` models a rejected estimation call (the only throwing
operation inside the try block), `chainGasPrice` the current gas price. -/

inductive Protocol where
  | dragonswap
  | sailor
deriving Repr, DecidableEq

structure GasQuoteData where
  gasUseEstimate : Option Nat
  estimated_gas : Option Nat
  maxFeePerGas : Option Nat
  maxPriorityFeePerGas : Option Nat
deriving Repr, DecidableEq

structure GasEstimationParams where
  gasLimit : Option Nat
  gasPrice : Option Nat
  apiQuoteData : Option GasQuoteData
  useApiCalldata : Bool
  isComplexRouting : Bool
  protocol : Protocol
  simulatedGas : Option Nat
  chainGasPrice : Nat
deriving Repr, DecidableEq

def apiGasUseEstimate (p : GasEstimationParams) : Option Nat :=
  p.apiQuoteData.bind (fun q => q.gasUseEstimate)

def apiEstimatedGas (p : GasEstimationParams) : Option Nat :=
  p.apiQuoteData.bind (fun q => q.estimated_gas)

/-- The private `estimateGas` method of SwapGasService. -/
def estimateGas (p : GasEstimationParams) : Nat :=
  if p.useApiCalldata && (apiGasUseEstimate p).isSome then
    (apiGasUseEstimate p).getD 0 + 50000
  else if p.protocol = Protocol.sailor then
    if p.isComplexRouting && (apiEstimatedGas p).isSome then
      (apiEstimatedGas p).getD 0 + 200000
    else if p.isComplexRouting then 400000 else 350000
  else
    match p.simulatedGas with
    | some g => g
    | none => if p.protocol = Protocol.sailor then 400000 else 300000

structure FeeParams where
  maxFeePerGas : Nat
  maxPriorityFeePerGas : Nat
deriving Repr, DecidableEq

/-- The private `calculateGasParameters` method of SwapGasService. -/
def calculateGasParameters (currentGasPrice : Nat) (apiQuoteData : Option GasQuoteData) :
    FeeParams :=
  let basePriority := currentGasPrice / 10
  let baseFee := currentGasPrice * 2
  match apiQuoteData with
  | none => { maxFeePerGas := baseFee, maxPriorityFeePerGas := basePriority }
  | some q =>
    let prio :=
      match q.maxPriorityFeePerGas with
      | some v => v
      | none => basePriority
    let fee :=
      match q.maxFeePerGas with
      | some v => v
      | none =>
        match q.maxPriorityFeePerGas with
        | some _ => prio * 2
        | none => baseFee
    { maxFeePerGas := fee, maxPriorityFeePerGas := prio }

/-- The gas price used: the caller's override else the chain gas price. -/
def gasPriceOf (p : GasEstimationParams) : Nat :=
  match p.gasPrice with
  | some g => g
  | none => p.chainGasPrice

structure GasResult where
  estimatedGas : Nat
  maxFeePerGas : Nat
  maxPriorityFeePerGas : Nat
deriving Repr, DecidableEq

/-- `SwapGasService.estimateAndPriceGas`. -/
def estimateAndPriceGas (p : GasEstimationParams) : GasResult :=
  let estimatedGas :=
    match p.gasLimit with
    | some g => g
    | none => estimateGas p
  let fees := calculateGasParameters (gasPriceOf p) p.apiQuoteData
  { estimatedGas := estimatedGas
    maxFeePerGas := fees.maxFeePerGas
    maxPriorityFeePerGas := fees.maxPriorityFeePerGas }

def gasCounterexampleParams : GasEstimationParams :=
  { gasLimit := none
    gasPrice := none
    apiQuoteData := some { gasUseEstimate := none, estimated_gas := some 400000,
                           maxFeePerGas := none, maxPriorityFeePerGas := none }
    useApiCalldata := false
    isComplexRouting := false
    protocol := Protocol.sailor
    simulatedGas := some 999999
    chainGasPrice := 100 }

/-- C9 counterexample: a sailor single-hop request with no caller override,
a quote-supplied gas estimate of 400000 and a live simulation that would
return 999999 gets the fixed constant 350000 — smaller than the quote
estimate itself (so not estimate plus a non-negative buffer) and not the
simulation value — violating the claimed precedence order. -/
theorem estimateAndPriceGas_precedence_counterexample :
    (estimateAndPriceGas gasCounterexampleParams).estimatedGas = 350000 ∧
    gasCounterexampleParams.gasLimit = none ∧
    apiEstimatedGas gasCounterexampleParams = some 400000 ∧
    gasCounterexampleParams.simulatedGas = some 999999 ∧
    ∀ buffer : Nat, 400000 + buffer ≠ 350000 := by
  refine ⟨by decide, rfl, rfl, rfl, ?_⟩
  intro buffer
  omega

/-- C9 (amended): the planner resolves the gas limit as: caller override
first; else, when executing API calldata with a quote-supplied estimate,
that estimate plus a 50000 buffer; else on the sailor path no live
simulation is performed — a multi-hop route with a quote estimate gets
estimate + 200000, otherwise the fixed constants 400000 (multi-hop) /
350000 (single-hop); else (dragonswap) the live simulation result, with the
fixed fallback 300000 when simulation throws.  Fee parameters are the
quote-supplied maxFeePerGas / maxPriorityFeePerGas when present, otherwise
maxPriorityFeePerGas = gasPrice/10 and maxFeePerGas = gasPrice*2 from the
caller-supplied or current chain gas price; when only the priority fee is
quote-supplied, maxFeePerGas = 2 * that priority fee. -/
theorem estimateAndPriceGas_spec (p : GasEstimationParams) :
    (∀ g, p.gasLimit = some g → (estimateAndPriceGas p).estimatedGas = g) ∧
    (p.gasLimit = none → p.useApiCalldata = true →
      ∀ e, apiGasUseEstimate p = some e →
        (estimateAndPriceGas p).estimatedGas = e + 50000) ∧
    (p.gasLimit = none →
      (p.useApiCalldata && (apiGasUseEstimate p).isSome) = false →
      p.protocol = Protocol.sailor →
      (estimateAndPriceGas p).estimatedGas =
        (if (p.isComplexRouting && (apiEstimatedGas p).isSome) = true then
          (apiEstimatedGas p).getD 0 + 200000
        else if p.isComplexRouting = true then 400000 else 350000)) ∧
    (p.gasLimit = none →
      (p.useApiCalldata && (apiGasUseEstimate p).isSome) = false →
      p.protocol = Protocol.dragonswap →
      ∀ g, p.simulatedGas = some g → (estimateAndPriceGas p).estimatedGas = g) ∧
    (p.gasLimit = none →
      (p.useApiCalldata && (apiGasUseEstimate p).isSome) = false →
      p.protocol = Protocol.dragonswap →
      p.simulatedGas = none → (estimateAndPriceGas p).estimatedGas = 300000) ∧
    (∀ q, p.apiQuoteData = some q →
      (∀ f, q.maxFeePerGas = some f → (estimateAndPriceGas p).maxFeePerGas = f) ∧
      (∀ pr, q.maxPriorityFeePerGas = some pr →
        (estimateAndPriceGas p).maxPriorityFeePerGas = pr ∧
        (q.maxFeePerGas = none → (estimateAndPriceGas p).maxFeePerGas = pr * 2)) ∧
      (q.maxPriorityFeePerGas = none →
        (estimateAndPriceGas p).maxPriorityFeePerGas = gasPriceOf p / 10) ∧
      (q.maxFeePerGas = none → q.maxPriorityFeePerGas = none →
        (estimateAndPriceGas p).maxFeePerGas = gasPriceOf p * 2)) ∧
    (p.apiQuoteData = none →
      (estimateAndPriceGas p).maxFeePerGas = gasPriceOf p * 2 ∧
      (estimateAndPriceGas p).maxPriorityFeePerGas = gasPriceOf p / 10) := by
  refine ⟨?_, ?_, ?_, ?_, ?_, ?_, ?_⟩
  · intro g hg
    simp [estimateAndPriceGas, hg]
  · intro hnone huse e he
    simp [estimateAndPriceGas, estimateGas, hnone, huse, he]
  · intro hnone hfalse hsailor
    simp only [estimateAndPriceGas, estimateGas, hnone, hfalse, hsailor]
    simp
  · intro hnone hfalse hdragon g hg
    simp [estimateAndPriceGas, estimateGas, hnone, hfalse, hdragon, hg]
  · intro hnone hfalse hdragon hsim
    simp [estimateAndPriceGas, estimateGas, hnone, hfalse, hdragon, hsim]
  · intro q hq
    refine ⟨?_, ?_, ?_, ?_⟩
    · intro f hf
      simp [estimateAndPriceGas, calculateGasParameters, hq, hf]
    · intro pr hpr
      constructor
      · simp [estimateAndPriceGas, calculateGasParameters, hq, hpr]
      · intro hnf
        simp [estimateAndPriceGas, calculateGasParameters, hq, hpr, hnf]
    · intro hnpr
      simp [estimateAndPriceGas, calculateGasParameters, hq, hnpr]
    · intro hnf hnpr
      simp [estimateAndPriceGas, calculateGasParameters, hq, hnf, hnpr]
  · intro hnone
    simp [estimateAndPriceGas, calculateGasParameters, hnone]

/-- Closed witness for the C9 theorem at the counterexample parameters. -/
theorem estimateAndPriceGas_spec_witness :
    ((∀ g, gasCounterexampleParams.gasLimit = some g →
        (estimateAndPriceGas gasCounterexampleParams).estimatedGas = g) ∧
    (gasCounterexampleParams.gasLimit = none →
      gasCounterexampleParams.useApiCalldata = true →
      ∀ e, apiGasUseEstimate gasCounterexampleParams = some e →
        (estimateAndPriceGas gasCounterexampleParams).estimatedGas = e + 50000) ∧
    (gasCounterexampleParams.gasLimit = none →
      (gasCounterexampleParams.useApiCalldata &&
          (apiGasUseEstimate gasCounterexampleParams).isSome) = false →
      gasCounterexampleParams.protocol = Protocol.sailor →
      (estimateAndPriceGas gasCounterexampleParams).estimatedGas =
        (if (gasCounterexampleParams.isComplexRouting &&
              (apiEstimatedGas gasCounterexampleParams).isSome) = true then
          (apiEstimatedGas gasCounterexampleParams).getD 0 + 200000
        else if gasCounterexampleParams.isComplexRouting = true then 400000 else 350000)) ∧
    (gasCounterexampleParams.gasLimit = none →
      (gasCounterexampleParams.useApiCalldata &&
          (apiGasUseEstimate gasCounterexampleParams).isSome) = false →
      gasCounterexampleParams.protocol = Protocol.dragonswap →
      ∀ g, gasCounterexampleParams.simulatedGas = some g →
        (estimateAndPriceGas gasCounterexampleParams).estimatedGas = g) ∧
    (gasCounterexampleParams.gasLimit = none →
      (gasCounterexampleParams.useApiCalldata &&
          (apiGasUseEstimate gasCounterexampleParams).isSome) = false →
      gasCounterexampleParams.protocol = Protocol.dragonswap →
      gasCounterexampleParams.simulatedGas = none →
        (estimateAndPriceGas gasCounterexampleParams).estimatedGas = 300000) ∧
    (∀ q, gasCounterexampleParams.apiQuoteData = some q →
      (∀ f, q.maxFeePerGas = some f →
        (estimateAndPriceGas gasCounterexampleParams).maxFeePerGas = f) ∧
      (∀ pr, q.maxPriorityFeePerGas = some pr →
        (estimateAndPriceGas gasCounterexampleParams).maxPriorityFeePerGas = pr ∧
        (q.maxFeePerGas = none →
          (estimateAndPriceGas gasCounterexampleParams).maxFeePerGas = pr * 2)) ∧
      (q.maxPriorityFeePerGas = none →
        (estimateAndPriceGas gasCounterexampleParams).maxPriorityFeePerGas =
          gasPriceOf gasCounterexampleParams / 10) ∧
      (q.maxFeePerGas = none → q.maxPriorityFeePerGas = none →
        (estimateAndPriceGas gasCounterexampleParams).maxFeePerGas =
          gasPriceOf gasCounterexampleParams * 2)) ∧
    (gasCounterexampleParams.apiQuoteData = none →
      (estimateAndPriceGas gasCounterexampleParams).maxFeePerGas =
        gasPriceOf gasCounterexampleParams * 2 ∧
      (estimateAndPriceGas gasCounterexampleParams).maxPriorityFeePerGas =
        gasPriceOf gasCounterexampleParams / 10)) :=
  estimateAndPriceGas_spec gasCounterexampleParams

/-! ## Amount conversion (viem parseUnits / formatUnits)

`formatUnits` follows viem: render the base-unit value in decimal, left-pad
with zeros to at least `decimals` digits, split `decimals` digits from the
right, trim trailing fraction zeros.  `parseUnitsQ` models viem `parseUnits`
on the tools' non-negative decimal-string inputs whose fraction fits within
`decimals` digits (viem additionally rounds excess digits, which such
inputs do not have); the string's numeric value is taken as a rational. -/

def dropTrailingZeros (s : List Char) : List Char :=
  (s.reverse.dropWhile (fun c => c = '0')).reverse

def formatUnits (value decimals : Nat) : String :=
  let ds := (toString value).data
  let padded := List.replicate (decimals - ds.length) '0' ++ ds
  let integer := padded.take (padded.length - decimals)
  let fraction := dropTrailingZeros (padded.drop (padded.length - decimals))
  String.mk ((if integer.isEmpty then ['0'] else integer) ++
    (if fraction.isEmpty then [] else '.' :: fraction))

def parseUnitsQ (amount : Rat) (decimals : Nat) : Nat :=
  amount.num.toNat * 10 ^ decimals / amount.den

/-! ## Swap pipeline — refactored dragonswap swap tool

The pipeline composes the embedded stages: SwapValidationService
(multicall read + balance check), the quote stage (DragonSwap API call with
its fallback logic), SwapApprovalService, SwapGasService and
SwapExecutionService.  External-world outcomes (protocol flag, wallet,
batched read results, API outcome, re-read allowance, approval confirmation,
gas simulation, chain gas price, execution result) are the `PipelineEnv`
inputs; the value returned is the structured outcome together with the list
of transactions the pipeline submits. -/

structure SwapRequest where
  tokenIn : Nat
  tokenOut : Nat
  amountIn : Rat
  minAmountOut : Option Rat
  slippage : Rat
  gasLimit : Option Nat
  gasPrice : Option Nat
deriving Repr, DecidableEq

structure DragonQuote where
  quoteDecimals : Rat
  methodParametersTo : Option Nat
  route : List Nat
  gasUseEstimate : Option Nat
  maxFeePerGas : Option Nat
  maxPriorityFeePerGas : Option Nat
deriving Repr, DecidableEq

/-- Outcome of the DragonSwap quote API call: a quote, a rejection whose
message contains `No trading route found`, or any other failure
(timeout / 5xx / network — the service unavailable case). -/
inductive ApiOutcome where
  | success (q : DragonQuote)
  | noRouteFound
  | unavailable
deriving Repr, DecidableEq

inductive SwapTx where
  | approval (token spender amount : Nat)
  | swapContract (router amountIn minAmountOut : Nat) (path : List Nat)
  | swapRaw (target : Nat)
deriving Repr, DecidableEq

inductive SwapOutcome where
  | protocolDisabled
  | walletNotConnected
  | validationError
  | insufficientBalance (required available : String)
  | unsupportedPair
  | errorResponse (message : String)
  | approvalFailed
  | executionFailed
  | swapSuccess
deriving Repr, DecidableEq

/-- Modelled from the spec: `services.approveERC20` (the token service
module is not part of this repository slice; only its call sites are).
Per §4.3 it submits an approval transaction for exactly the requested
amount — "submits an approval transaction for exactly requiredAmount (not
unlimited)" — here recorded in base units. -/
def approveERC20 (tokenAddress spenderAddress amountBaseUnits : Nat) : SwapTx :=
  SwapTx.approval tokenAddress spenderAddress amountBaseUnits

structure ApprovalAttempt where
  txs : List SwapTx
  waitConfirmations : Option Nat
  waitTimeoutMs : Option Nat
  ok : Bool
deriving Repr, DecidableEq

/-- `SwapApprovalService.handleAutoApproval`: a no-op when
currentAllowance ≥ amountInParsed; otherwise submits the approval for the
exact amount and blocks on its receipt with confirmations 2 and a 45000 ms
timeout (`approvalConfirms` is whether that wait succeeds). -/
def handleAutoApproval (tokenIn spenderAddress amountInParsed currentAllowance : Nat)
    (approvalConfirms : Bool) : ApprovalAttempt :=
  if currentAllowance ≥ amountInParsed then
    { txs := [], waitConfirmations := none, waitTimeoutMs := none, ok := true }
  else
    { txs := [approveERC20 tokenIn spenderAddress amountInParsed]
      waitConfirmations := some 2
      waitTimeoutMs := some 45000
      ok := approvalConfirms }

inductive ValidationResult where
  | invalid (outcome : SwapOutcome)
  | valid (info : SwapInfo) (amountInParsed : Nat)
deriving Repr, DecidableEq

/-- `SwapValidationService.validateSwapParameters`: runs the batched
multicall read (its decoded results are the input), parses the amount with
the token's decimals, and rejects with an insufficient-balance result —
carrying the formatted required and available amounts — when the balance is
below the parsed amount.  A throwing batched read is a validation error. -/
def validateSwapParameters (amountIn : Rat) (results : List MulticallResult) :
    ValidationResult :=
  match getSwapInfo results with
  | Except.error _ => ValidationResult.invalid SwapOutcome.validationError
  | Except.ok info =>
    let amountInParsed := parseUnitsQ amountIn info.tokenInDecimals
    if info.balance < amountInParsed then
      ValidationResult.invalid (SwapOutcome.insufficientBalance
        (formatUnits amountInParsed info.tokenInDecimals)
        (formatUnits info.balance info.tokenInDecimals))
    else
      ValidationResult.valid info amountInParsed

inductive QuoteStageResult where
  | halt (outcome : SwapOutcome)
  | proceed (apiQuoteData : Option DragonQuote) (useApiCalldata : Bool)
      (path : List Nat) (minAmountOut : Rat)
deriving Repr, DecidableEq

/-- The quote stage of the dragonswap swap tool: on API success the caller's
minAmountOut is kept, else auto-calculated from the quote; API calldata is
used when the response carries method parameters, otherwise the path is the
extracted route.  A `No trading route found` rejection halts with the
unsupported-pair response.  Any other API failure: without a caller-supplied
minAmountOut the tool throws (refusing execution); with one it proceeds on
the naive direct fallback path [tokenIn, tokenOut]. -/
def dragonQuoteStage (req : SwapRequest) (api : ApiOutcome) : QuoteStageResult :=
  match api with
  | ApiOutcome.success q =>
    let minOut :=
      match req.minAmountOut with
      | some m => m
      | none => calculateMinAmountOut q.quoteDecimals req.slippage
    match q.methodParametersTo with
    | some _ => QuoteStageResult.proceed (some q) true [req.tokenIn, req.tokenOut] minOut
    | none => QuoteStageResult.proceed (some q) false q.route minOut
  | ApiOutcome.noRouteFound => QuoteStageResult.halt SwapOutcome.unsupportedPair
  | ApiOutcome.unavailable =>
    match req.minAmountOut with
    | none =>
        QuoteStageResult.halt (SwapOutcome.errorResponse
          "minAmountOut is required when DragonSwap API is unavailable")
    | some m => QuoteStageResult.proceed none false [req.tokenIn, req.tokenOut] m

structure PipelineEnv where
  protocolEnabled : Bool
  hasAccount : Bool
  routerAddress : Nat
  multicallResults : List MulticallResult
  api : ApiOutcome
  spenderAllowance : Option Nat
  approvalConfirms : Bool
  simulatedGas : Option Nat
  chainGasPrice : Nat
  executionOk : Bool
deriving Repr, DecidableEq

def toGasQuote (q : DragonQuote) : GasQuoteData :=
  { gasUseEstimate := q.gasUseEstimate
    estimated_gas := none
    maxFeePerGas := q.maxFeePerGas
    maxPriorityFeePerGas := q.maxPriorityFeePerGas }

/-- The refactored `dragonswap_swap` tool: protocol flag and wallet checks,
validation (multicall read + balance), quote stage, approval handling
(re-reading the allowance when the spender is the API contract rather than
the router, falling back to the batched value if that read throws), gas
estimation and execution.  Returns the structured outcome and every
transaction submitted. -/
def dragonswapSwap (req : SwapRequest) (env : PipelineEnv) : SwapOutcome × List SwapTx :=
  if env.protocolEnabled = false then (SwapOutcome.protocolDisabled, [])
  else if env.hasAccount = false then (SwapOutcome.walletNotConnected, [])
  else
    match validateSwapParameters req.amountIn env.multicallResults with
    | ValidationResult.invalid outcome => (outcome, [])
    | ValidationResult.valid info amountInParsed =>
      match dragonQuoteStage req env.api with
      | QuoteStageResult.halt outcome => (outcome, [])
      | QuoteStageResult.proceed apiQuoteData useApiCalldata path minOut =>
        let minAmountOutParsed := parseUnitsQ minOut info.tokenOutDecimals
        let spenderAddress :=
          match apiQuoteData.bind (fun q => q.methodParametersTo) with
          | some t => if useApiCalldata then t else env.routerAddress
          | none => env.routerAddress
        let currentAllowance :=
          if spenderAddress = env.routerAddress then info.allowance
          else
            match env.spenderAllowance with
            | some a => a
            | none => info.allowance
        let approval := handleAutoApproval req.tokenIn spenderAddress amountInParsed
          currentAllowance env.approvalConfirms
        if approval.ok = false then (SwapOutcome.approvalFailed, approval.txs)
        else
          let _gas := estimateAndPriceGas
            { gasLimit := req.gasLimit
              gasPrice := req.gasPrice
              apiQuoteData := apiQuoteData.map toGasQuote
              useApiCalldata := useApiCalldata
              isComplexRouting := false
              protocol := Protocol.dragonswap
              simulatedGas := env.simulatedGas
              chainGasPrice := env.chainGasPrice }
          let swapTx :=
            match apiQuoteData.bind (fun q => q.methodParametersTo) with
            | some t =>
                if useApiCalldata then SwapTx.swapRaw t
                else SwapTx.swapContract env.routerAddress amountInParsed
                  minAmountOutParsed path
            | none =>
                SwapTx.swapContract env.routerAddress amountInParsed
                  minAmountOutParsed path
          if env.executionOk then (SwapOutcome.swapSuccess, approval.txs ++ [swapTx])
          else (SwapOutcome.executionFailed, approval.txs ++ [swapTx])

def isApprovalTx : SwapTx → Bool
  | SwapTx.approval _ _ _ => true
  | _ => false

theorem handleAutoApproval_cases (tokenIn sp amt cur : Nat) (conf : Bool) :
    (handleAutoApproval tokenIn sp amt cur conf =
        { txs := [], waitConfirmations := none, waitTimeoutMs := none, ok := true } ∧
      amt ≤ cur) ∨
    (handleAutoApproval tokenIn sp amt cur conf =
        { txs := [SwapTx.approval tokenIn sp amt], waitConfirmations := some 2,
          waitTimeoutMs := some 45000, ok := conf } ∧
      cur < amt) := by
  unfold handleAutoApproval
  by_cases hle : cur ≥ amt
  · left
    rw [if_pos hle]
    exact ⟨rfl, hle⟩
  · right
    rw [if_neg hle]
    exact ⟨rfl, by omega⟩

/-- C1: for every swap request whose parsed amountIn exceeds the balance
read by the batched pair-info call, the pipeline returns the
insufficient-balance result carrying the exact required and available
amounts (formatted with the token's decimals) and submits zero
transactions: no approval and no swap. -/
theorem dragonswapSwap_insufficient_balance (req : SwapRequest) (env : PipelineEnv)
    (info : SwapInfo)
    (hen : env.protocolEnabled = true) (hacc : env.hasAccount = true)
    (hinfo : getSwapInfo env.multicallResults = Except.ok info)
    (hbal : info.balance < parseUnitsQ req.amountIn info.tokenInDecimals) :
    dragonswapSwap req env =
      (SwapOutcome.insufficientBalance
        (formatUnits (parseUnitsQ req.amountIn info.tokenInDecimals) info.tokenInDecimals)
        (formatUnits info.balance info.tokenInDecimals), []) := by
  unfold dragonswapSwap validateSwapParameters
  rw [hen, hacc, hinfo]
  simp [hbal]

/-- C2: when the DragonSwap routing call fails with service unavailable and
the caller did not supply minAmountOut, the pipeline halts with the
`minAmountOut is required` error and submits zero transactions — no
synthetic output is fabricated; under the same failure, when the caller did
supply minAmountOut, the quote stage proceeds with no API quote data, no
API calldata, the naive direct fallback path [tokenIn, tokenOut], and
exactly the caller's minAmountOut. -/
theorem dragonswapSwap_api_unavailable (req : SwapRequest) (env : PipelineEnv)
    (info : SwapInfo)
    (hen : env.protocolEnabled = true) (hacc : env.hasAccount = true)
    (hinfo : getSwapInfo env.multicallResults = Except.ok info)
    (hbal : parseUnitsQ req.amountIn info.tokenInDecimals ≤ info.balance)
    (hapi : env.api = ApiOutcome.unavailable) :
    (req.minAmountOut = none →
      dragonswapSwap req env =
        (SwapOutcome.errorResponse
          "minAmountOut is required when DragonSwap API is unavailable", [])) ∧
    (∀ m, req.minAmountOut = some m →
      dragonQuoteStage req env.api =
        QuoteStageResult.proceed none false [req.tokenIn, req.tokenOut] m) := by
  constructor
  · intro hmin
    unfold dragonswapSwap validateSwapParameters
    rw [hen, hacc, hinfo]
    simp only [Bool.true_eq_false, if_false]
    rw [if_neg (by omega)]
    unfold dragonQuoteStage
    rw [hapi, hmin]
  · intro m hmin
    unfold dragonQuoteStage
    rw [hapi, hmin]

/-- C3: the approval stage submits no transaction if and only if the current
allowance covers the required amount; when it is insufficient it submits an
approval transaction for exactly the required amount (never max-uint256)
and blocks on the approval receipt with confirmations = 2 and a 45000 ms
timeout; and in any pipeline run that submits both an approval and a swap
transaction, the approval comes first and its confirmation wait succeeded
before the swap was submitted. -/
theorem approval_stage_spec (tokenIn spender amountInParsed currentAllowance : Nat)
    (confirms : Bool) (req : SwapRequest) (env : PipelineEnv) (t1 t2 : SwapTx)
    (hpair : (dragonswapSwap req env).2 = [t1, t2]) :
    ((handleAutoApproval tokenIn spender amountInParsed currentAllowance confirms).txs = []
        ↔ amountInParsed ≤ currentAllowance) ∧
    (currentAllowance < amountInParsed →
      (handleAutoApproval tokenIn spender amountInParsed currentAllowance confirms).txs
          = [SwapTx.approval tokenIn spender amountInParsed] ∧
        (handleAutoApproval tokenIn spender amountInParsed currentAllowance
            confirms).waitConfirmations = some 2 ∧
        (handleAutoApproval tokenIn spender amountInParsed currentAllowance
            confirms).waitTimeoutMs = some 45000) ∧
    (isApprovalTx t1 = true ∧ isApprovalTx t2 = false ∧ env.approvalConfirms = true) := by
  refine ⟨?_, ?_, ?_⟩
  · rcases handleAutoApproval_cases tokenIn spender amountInParsed currentAllowance confirms
      with ⟨hA, hle⟩ | ⟨hA, hlt⟩
    · rw [hA]
      exact iff_of_true rfl hle
    · rw [hA]
      refine iff_of_false (by simp) (by omega)
  · intro hlt
    rcases handleAutoApproval_cases tokenIn spender amountInParsed currentAllowance confirms
      with ⟨hA, hle⟩ | ⟨hA, _⟩
    · omega
    · rw [hA]
      exact ⟨rfl, rfl, rfl⟩
  · unfold dragonswapSwap at hpair
    by_cases h1 : env.protocolEnabled = false
    · rw [if_pos h1] at hpair
      simp at hpair
    · rw [if_neg h1] at hpair
      by_cases h2 : env.hasAccount = false
      · rw [if_pos h2] at hpair
        simp at hpair
      · rw [if_neg h2] at hpair
        cases hv : validateSwapParameters req.amountIn env.multicallResults with
        | invalid o =>
            rw [hv] at hpair
            simp at hpair
        | valid info amountInParsed2 =>
          rw [hv] at hpair
          cases hq : dragonQuoteStage req env.api with
          | halt o =>
              rw [hq] at hpair
              simp at hpair
          | proceed apiQ useApi path minOut =>
            rw [hq] at hpair
            simp only at hpair
            rcases handleAutoApproval_cases req.tokenIn
                (match apiQ.bind (fun q => q.methodParametersTo) with
                  | some t => if useApi then t else env.routerAddress
                  | none => env.routerAddress)
                amountInParsed2
                (if (match apiQ.bind (fun q => q.methodParametersTo) with
                      | some t => if useApi then t else env.routerAddress
                      | none => env.routerAddress) = env.routerAddress then info.allowance
                  else
                    match env.spenderAllowance with
                    | some a => a
                    | none => info.allowance)
                env.approvalConfirms with ⟨hA, hle⟩ | ⟨hA, hlt⟩
            · rw [hA] at hpair
              simp only at hpair
              cases henv : env.executionOk
              · rw [henv] at hpair
                simp at hpair
              · rw [henv] at hpair
                simp at hpair
            · rw [hA] at hpair
              cases hconf : env.approvalConfirms
              · rw [hconf] at hpair
                simp at hpair
              · rw [hconf] at hpair
                simp only at hpair
                cases henv : env.executionOk
                · rw [henv] at hpair
                  simp at hpair
                  obtain ⟨hT1, hT2⟩ := hpair
                  refine ⟨?_, ?_, rfl⟩
                  · rw [← hT1]
                    rfl
                  · rw [← hT2]
                    cases hm : apiQ.bind (fun q => q.methodParametersTo) with
                    | none => rfl
                    | some t => cases useApi <;> rfl
                · rw [henv] at hpair
                  simp at hpair
                  obtain ⟨hT1, hT2⟩ := hpair
                  refine ⟨?_, ?_, rfl⟩
                  · rw [← hT1]
                    rfl
                  · rw [← hT2]
                    cases hm : apiQ.bind (fun q => q.methodParametersTo) with
                    | none => rfl
                    | some t => cases useApi <;> rfl

/-- Example 1 material: a 6-decimal tokenIn with balance 50 tokens. -/
def exampleResults : List MulticallResult :=
  [{ success := true, returnData := some (ERC20Value.num 6) },
   { success := true, returnData := some (ERC20Value.txt "USDT") },
   { success := true, returnData := some (ERC20Value.txt "Tether USD") },
   { success := true, returnData := some (ERC20Value.num 6) },
   { success := true, returnData := some (ERC20Value.txt "USDC") },
   { success := true, returnData := some (ERC20Value.txt "USD Coin") },
   { success := true, returnData := some (ERC20Value.num 50000000) },
   { success := true, returnData := some (ERC20Value.num 0) }]

def exampleInfo : SwapInfo :=
  { tokenInDecimals := 6, tokenOutDecimals := 6,
    tokenInSymbol := "USDT", tokenOutSymbol := "USDC",
    tokenInName := "Tether USD", tokenOutName := "USD Coin",
    balance := 50000000, allowance := 0 }

def exampleRequest : SwapRequest :=
  { tokenIn := 11, tokenOut := 22, amountIn := 100, minAmountOut := none,
    slippage := 2, gasLimit := none, gasPrice := none }

def exampleEnv : PipelineEnv :=
  { protocolEnabled := true, hasAccount := true, routerAddress := 777,
    multicallResults := exampleResults, api := ApiOutcome.unavailable,
    spenderAllowance := none, approvalConfirms := true, simulatedGas := none,
    chainGasPrice := 100, executionOk := true }

/-- Closed witness for C1 on the spec's Example 1: amountIn 100 against a
balance of 50 yields the insufficient-balance result with required `100`
and available `50`, and zero transactions. -/
theorem dragonswapSwap_insufficient_balance_witness :
    dragonswapSwap exampleRequest exampleEnv
      = (SwapOutcome.insufficientBalance "100" "50", []) := by
  rw [dragonswapSwap_insufficient_balance exampleRequest exampleEnv exampleInfo rfl rfl
    (by decide) (by decide)]
  decide

/-- A wallet holding 200 tokens (validation passes). -/
def richResults : List MulticallResult :=
  [{ success := true, returnData := some (ERC20Value.num 6) },
   { success := true, returnData := some (ERC20Value.txt "USDT") },
   { success := true, returnData := some (ERC20Value.txt "Tether USD") },
   { success := true, returnData := some (ERC20Value.num 6) },
   { success := true, returnData := some (ERC20Value.txt "USDC") },
   { success := true, returnData := some (ERC20Value.txt "USD Coin") },
   { success := true, returnData := some (ERC20Value.num 200000000) },
   { success := true, returnData := some (ERC20Value.num 0) }]

def richInfo : SwapInfo :=
  { tokenInDecimals := 6, tokenOutDecimals := 6,
    tokenInSymbol := "USDT", tokenOutSymbol := "USDC",
    tokenInName := "Tether USD", tokenOutName := "USD Coin",
    balance := 200000000, allowance := 0 }

def richEnv : PipelineEnv :=
  { protocolEnabled := true, hasAccount := true, routerAddress := 777,
    multicallResults := richResults, api := ApiOutcome.unavailable,
    spenderAllowance := none, approvalConfirms := true, simulatedGas := none,
    chainGasPrice := 100, executionOk := true }

/-- Closed witness for C2: API unavailable with no caller minAmountOut. -/
theorem dragonswapSwap_api_unavailable_witness :
    (exampleRequest.minAmountOut = none →
      dragonswapSwap exampleRequest richEnv =
        (SwapOutcome.errorResponse
          "minAmountOut is required when DragonSwap API is unavailable", [])) ∧
    (∀ m, exampleRequest.minAmountOut = some m →
      dragonQuoteStage exampleRequest richEnv.api =
        QuoteStageResult.proceed none false
          [exampleRequest.tokenIn, exampleRequest.tokenOut] m) :=
  dragonswapSwap_api_unavailable exampleRequest richEnv richInfo rfl rfl
    (by decide) (by decide) rfl

def approvalNeededRequest : SwapRequest :=
  { tokenIn := 11, tokenOut := 22, amountIn := 100, minAmountOut := some 95,
    slippage := 2, gasLimit := none, gasPrice := none }

/-- Closed witness for C3: an allowance of 0 against a required 1000 forces
an exact-amount approval with the 2-confirmation 45 s wait, and the
concrete two-transaction pipeline run submits the approval first, the swap
second, with the approval confirmed. -/
theorem approval_stage_spec_witness :
    ((handleAutoApproval 5 6 1000 0 true).txs = [] ↔ 1000 ≤ 0) ∧
    (0 < 1000 →
      (handleAutoApproval 5 6 1000 0 true).txs = [SwapTx.approval 5 6 1000] ∧
        (handleAutoApproval 5 6 1000 0 true).waitConfirmations = some 2 ∧
        (handleAutoApproval 5 6 1000 0 true).waitTimeoutMs = some 45000) ∧
    (isApprovalTx (SwapTx.approval 11 777 100000000) = true ∧
      isApprovalTx (SwapTx.swapContract 777 100000000 95000000 [11, 22]) = false ∧
      richEnv.approvalConfirms = true) :=
  approval_stage_spec 5 6 1000 0 true approvalNeededRequest richEnv
    (SwapTx.approval 11 777 100000000)
    (SwapTx.swapContract 777 100000000 95000000 [11, 22])
    (by decide)
